import Mathlib

/-!
Shallow embedding of the `w5-lab-storage` repository: the `HomePage`
component of `src/w5-lab-storage/src/app/home/home.page.ts` together with a
model of the asynchronous key-value storage facade (`Storage` of
`@ionic/storage-angular`) that the component calls.  The facade's own source
is not part of this repository — only its caller `home.page.ts` is — so the
facade is modelled from the specification's §3–§7 (drivers, error taxonomy,
operation table), while every `HomePage` handler is translated directly from
`home.page.ts`.
-/

/-- JavaScript-style serializable values stored by the key-value engine
(spec §3: strings, numbers, booleans, arrays, objects, and `null`). -/
inductive Value : Type where
  | vnull : Value
  | str : String → Value
  | num : Int → Value
  | boolv : Bool → Value
  | arr : List Value → Value
  | obj : List (String × Value) → Value

/-- Modelled from the spec: the pluggable persistence drivers, in the §4.1
priority order (indexed-database, relational-file, persistent-map fallback). -/
inductive Driver : Type where
  | indexedDB : Driver
  | relationalFile : Driver
  | persistentMap : Driver
  deriving DecidableEq, Repr

/-- Modelled from the spec (§7): the typed error taxonomy of the storage
layer.  `notInit` is the spec's kind for an operation attempted before
successful initialization. -/
inductive StorageErr : Type where
  | notInit : StorageErr
  | engineUnavailable : StorageErr
  | readFailure : StorageErr
  | writeFailure : StorageErr
  | serializationFailure : StorageErr
  deriving DecidableEq, Repr

/-- Modelled from the spec: the state of the `Storage` facade.  `ready` says
whether `create()` has completed successfully; `driver` is the engine selected
at that point; the three `avail*` flags say which drivers the platform offers;
`broken` injects the driver I/O faults of the §4.1 failure column (when set,
reads fail with `readFailure` and writes with `writeFailure`); `entries` is the
stored mapping as an association list with unique keys. -/
structure StorageState : Type where
  ready : Bool
  driver : Option Driver
  availIndexedDB : Bool
  availRelationalFile : Bool
  availPersistentMap : Bool
  broken : Bool
  entries : List (String × Value)

/-- Store or overwrite the entry for `k` in an association list: replace in
place when the key is present, append otherwise. -/
def setEntry : List (String × Value) → String → Value → List (String × Value)
  | [], k, v => [(k, v)]
  | (k', v') :: rest, k, v =>
    if k' = k then (k, v) :: rest else (k', v') :: setEntry rest k v

/-- Look up the value stored under `k`; `none` is the absent sentinel. -/
def lookupEntry : List (String × Value) → String → Option Value
  | [], _ => none
  | (k', v') :: rest, k => if k' = k then some v' else lookupEntry rest k

/-- Drop the entry for `k` (no-op when absent). -/
def removeEntry (l : List (String × Value)) (k : String) : List (String × Value) :=
  l.filter (fun e => decide (e.1 ≠ k))

/-- Modelled from the spec (§4.1): the first available driver in priority
order, or `none` when no driver can be initialized. -/
def selectDriver (s : StorageState) : Option Driver :=
  if s.availIndexedDB then some Driver.indexedDB
  else if s.availRelationalFile then some Driver.relationalFile
  else if s.availPersistentMap then some Driver.persistentMap
  else none

/-- Modelled from the spec (§4.1): `create()` — the facade's initialization.
A call while already initialized returns immediately with the state (hence the
engine) unchanged; otherwise it selects the first available driver, failing
with `engineUnavailable` when there is none. -/
def Storage.create (s : StorageState) : Except StorageErr StorageState :=
  if s.ready then Except.ok s
  else
    match selectDriver s with
    | some d => Except.ok { s with ready := true, driver := some d }
    | none => Except.error StorageErr.engineUnavailable

/-- Modelled from the spec (§4.1): `set(key, value)` stores/overwrites the
entry and returns the updated value; rejected with `notInit` before
initialization and with `writeFailure` when the engine rejects the write. -/
def Storage.set (s : StorageState) (k : String) (v : Value) :
    Except StorageErr (StorageState × Value) :=
  if s.ready then
    if s.broken then Except.error StorageErr.writeFailure
    else Except.ok ({ s with entries := setEntry s.entries k v }, v)
  else Except.error StorageErr.notInit

/-- Modelled from the spec (§4.1): `get(key)` returns the stored value or the
absent sentinel (`none`, the spec's `null`); `notInit` before initialization,
`readFailure` on a driver I/O error. -/
def Storage.get (s : StorageState) (k : String) : Except StorageErr (Option Value) :=
  if s.ready then
    if s.broken then Except.error StorageErr.readFailure
    else Except.ok (lookupEntry s.entries k)
  else Except.error StorageErr.notInit

/-- Modelled from the spec (§4.1): `remove(key)` removes the entry if present,
no-op if absent; `notInit` before initialization, `writeFailure` on error. -/
def Storage.remove (s : StorageState) (k : String) : Except StorageErr StorageState :=
  if s.ready then
    if s.broken then Except.error StorageErr.writeFailure
    else Except.ok { s with entries := removeEntry s.entries k }
  else Except.error StorageErr.notInit

/-- Modelled from the spec (§4.1): `clear()` removes all entries. -/
def Storage.clear (s : StorageState) : Except StorageErr StorageState :=
  if s.ready then
    if s.broken then Except.error StorageErr.writeFailure
    else Except.ok { s with entries := [] }
  else Except.error StorageErr.notInit

/-- Modelled from the spec (§4.1): `keys()` produces all currently stored
keys. -/
def Storage.keys (s : StorageState) : Except StorageErr (List String) :=
  if s.ready then
    if s.broken then Except.error StorageErr.readFailure
    else Except.ok (s.entries.map Prod.fst)
  else Except.error StorageErr.notInit

/-- Modelled from the spec (§4.1): `length()` counts the stored entries. -/
def Storage.length (s : StorageState) : Except StorageErr Nat :=
  if s.ready then
    if s.broken then Except.error StorageErr.readFailure
    else Except.ok s.entries.length
  else Except.error StorageErr.notInit

/-- One pass of the `forEach` visitor over the entries, starting at ordinal
index `i`: returns the trace of invocations `(value, key, index)` actually
made and the first visitor failure, if any; iteration stops at that failure. -/
def runVisits {ε : Type} (visitor : Value → String → Nat → Except ε Unit) :
    List (String × Value) → Nat → List (Value × String × Nat) × Option ε
  | [], _ => ([], none)
  | (k, v) :: rest, i =>
    match visitor v k i with
    | Except.error e => ([(v, k, i)], some e)
    | Except.ok _ =>
      ((v, k, i) :: (runVisits visitor rest (i + 1)).1, (runVisits visitor rest (i + 1)).2)

/-- The full annotation of an entry list with ordinal indices starting at `i`:
the sequence of `(value, key, index)` triples a completed pass visits. -/
def annotate : List (String × Value) → Nat → List (Value × String × Nat)
  | [], _ => []
  | (k, v) :: rest, i => (v, k, i) :: annotate rest (i + 1)

/-- Modelled from the spec (§4.1): `forEach(visitor)` invokes the visitor once
per stored entry with `(value, key, ordinalIndex)`; a visitor failure
propagates and aborts the remaining iteration.  The result is the trace of
visitor invocations made, paired with the outcome (`Sum.inl` an engine error,
`Sum.inr` a visitor failure). -/
def Storage.forEach {ε : Type} (s : StorageState)
    (visitor : Value → String → Nat → Except ε Unit) :
    List (Value × String × Nat) × Except (StorageErr ⊕ ε) Unit :=
  if s.ready then
    if s.broken then ([], Except.error (Sum.inl StorageErr.readFailure))
    else
      ((runVisits visitor s.entries 0).1,
        match (runVisits visitor s.entries 0).2 with
        | none => Except.ok ()
        | some e => Except.error (Sum.inr e))
  else ([], Except.error (Sum.inl StorageErr.notInit))

/-- JavaScript string coercion of a stored value, as the template literals of
`home.page.ts` perform it: `null` renders as the string `null`, a string
interpolates as itself (unquoted), numbers and booleans in decimal/lowercase
form, arrays join their elements with commas, plain objects render as
`[object Object]`. -/
def Value.jsString : Value → String
  | Value.vnull => "null"
  | Value.str s => s
  | Value.num n => toString n
  | Value.boolv b => if b then "true" else "false"
  | Value.arr xs => String.intercalate "," (xs.attach.map (fun x => Value.jsString x.1))
  | Value.obj _ => "[object Object]"
decreasing_by
  simp_wf
  have h := List.sizeOf_lt_of_mem x.2
  simp [Value.arr.sizeOf_spec]
  omega

/-- Rendering of a `get` result in a template literal: the absent sentinel
`null` interpolates as the string `null`. -/
def renderGet : Option Value → String
  | none => "null"
  | some v => v.jsString

/-- The component state of `HomePage` (`home.page.ts` lines 14-18): the bound
input fields `key` and `value` and the displayed `output`, all strings. -/
structure HomePage : Type where
  key : String
  value : String
  output : String

/-- The observable outcome of one async `HomePage` handler: the component and
engine state afterwards, the handler's rejection (`some e` when the awaited
storage call rejected with `e`, in which case the handler itself rejects with
that same error and no later statement of its body runs), and the messages the
handler wrote to the console or any other observability sink. -/
structure HandlerResult : Type where
  page : HomePage
  store : StorageState
  err : Option StorageErr
  log : List String

/-- `home.page.ts` lines 22-24: `ngOnInit` awaits `storage.create()`. -/
def HomePage.ngOnInit (p : HomePage) (s : StorageState) : HandlerResult :=
  match Storage.create s with
  | Except.error e => ⟨p, s, some e, []⟩
  | Except.ok s2 => ⟨p, s2, none, []⟩

/-- `home.page.ts` lines 26-29: `setItem` awaits `storage.set(this.key,
this.value)` (both bound fields are strings) and then assigns
`output = Set (key): (value)`.  There is no catch and no logging. -/
def HomePage.setItem (p : HomePage) (s : StorageState) : HandlerResult :=
  match Storage.set s p.key (Value.str p.value) with
  | Except.error e => ⟨p, s, some e, []⟩
  | Except.ok r =>
    ⟨{ p with output := "Set " ++ p.key ++ ": " ++ p.value }, r.1, none, []⟩

/-- `home.page.ts` lines 31-34: `getItem` awaits `storage.get(this.key)` and
assigns `output = Get (key): (value)`, interpolating the raw result. -/
def HomePage.getItem (p : HomePage) (s : StorageState) : HandlerResult :=
  match Storage.get s p.key with
  | Except.error e => ⟨p, s, some e, []⟩
  | Except.ok v =>
    ⟨{ p with output := "Get " ++ p.key ++ ": " ++ renderGet v }, s, none, []⟩

/-- `home.page.ts` lines 36-39: `removeItem` awaits `storage.remove(this.key)`
and assigns `output = Removed (key)`. -/
def HomePage.removeItem (p : HomePage) (s : StorageState) : HandlerResult :=
  match Storage.remove s p.key with
  | Except.error e => ⟨p, s, some e, []⟩
  | Except.ok s2 => ⟨{ p with output := "Removed " ++ p.key }, s2, none, []⟩

/-- `home.page.ts` lines 41-44: `clearStorage` awaits `storage.clear()` and
assigns `output = Cleared all items`. -/
def HomePage.clearStorage (p : HomePage) (s : StorageState) : HandlerResult :=
  match Storage.clear s with
  | Except.error e => ⟨p, s, some e, []⟩
  | Except.ok s2 => ⟨{ p with output := "Cleared all items" }, s2, none, []⟩

/-- `home.page.ts` lines 46-49: `getKeys` awaits `storage.keys()` and assigns
`output = Stored keys: (keys joined by comma-space)`. -/
def HomePage.getKeys (p : HomePage) (s : StorageState) : HandlerResult :=
  match Storage.keys s with
  | Except.error e => ⟨p, s, some e, []⟩
  | Except.ok ks =>
    ⟨{ p with output := "Stored keys: " ++ String.intercalate ", " ks }, s, none, []⟩

/-- `home.page.ts` lines 51-54: `getLength` awaits `storage.length()` and
assigns `output = Number of key/value pairs: (length)`. -/
def HomePage.getLength (p : HomePage) (s : StorageState) : HandlerResult :=
  match Storage.length s with
  | Except.error e => ⟨p, s, some e, []⟩
  | Except.ok n =>
    ⟨{ p with output := "Number of key/value pairs: " ++ toString n }, s, none, []⟩

/-- The line the `enumerateItems` visitor appends for one invocation
`(value, key, index)`. -/
def visitLine (t : Value × String × Nat) : String :=
  "Key: " ++ t.2.1 ++ ", Value: " ++ t.1.jsString ++ ", Index: " ++ toString t.2.2 ++ "\n"

/-- `home.page.ts` lines 56-62: `enumerateItems` awaits `storage.forEach` with
a visitor that appends one line per entry to a local accumulator, then assigns
the accumulator to `output`.  The visitor itself never throws (its failure
type is `Empty`). -/
def HomePage.enumerateItems (p : HomePage) (s : StorageState) : HandlerResult :=
  match Storage.forEach s (fun _ _ _ => (Except.ok () : Except Empty Unit)) with
  | (tr, Except.ok _) => ⟨{ p with output := String.join (tr.map visitLine) }, s, none, []⟩
  | (_, Except.error (Sum.inl e)) => ⟨p, s, some e, []⟩
  | (_, Except.error (Sum.inr e)) => e.elim

/-- A concrete platform state before `create()` has run: the indexed-database
and fallback drivers are available, the store is empty. -/
def sFresh : StorageState := ⟨false, none, true, false, true, false, []⟩

/-- A concrete initialized, healthy, empty store. -/
def sReady : StorageState := ⟨true, some Driver.indexedDB, true, false, true, false, []⟩

/-- A concrete initialized store whose driver is currently failing all I/O. -/
def sFaulty : StorageState := ⟨true, some Driver.indexedDB, true, false, true, true, []⟩

/-- A concrete initialized store holding the two entries of the spec's §8
scenario. -/
def sTwo : StorageState :=
  ⟨true, some Driver.indexedDB, true, false, true, false,
    [("a", Value.num 1), ("b", Value.num 2)]⟩

/-- A concrete component state with the spec's §8 scenario inputs. -/
def pEx : HomePage := ⟨"Name", "John", ""⟩

/-- After storing `v` under `k`, looking `k` up finds exactly `v`. -/
theorem lookup_setEntry : ∀ (l : List (String × Value)) (k : String) (v : Value),
    lookupEntry (setEntry l k v) k = some v
  | [], k, v => by simp [setEntry, lookupEntry]
  | (k', v') :: rest, k, v => by
    by_cases h : k' = k
    · simp [setEntry, h, lookupEntry]
    · simp [setEntry, h, lookupEntry, lookup_setEntry rest k v]

/-- After removing `k`, looking `k` up finds nothing. -/
theorem lookup_removeEntry (l : List (String × Value)) (k : String) :
    lookupEntry (removeEntry l k) k = none := by
  induction l with
  | nil => simp [removeEntry, lookupEntry]
  | cons hd tl ih =>
    by_cases h : hd.1 = k
    · simpa [removeEntry, List.filter_cons, h, lookupEntry] using ih
    · simpa [removeEntry, List.filter_cons, h, lookupEntry] using ih

/-- Overwriting an already-present key leaves the key list unchanged. -/
theorem keys_setEntry_mem : ∀ (l : List (String × Value)) (k : String) (v : Value),
    k ∈ l.map Prod.fst → (setEntry l k v).map Prod.fst = l.map Prod.fst
  | [], k, v, h => by simp at h
  | (k', v') :: rest, k, v, h => by
    by_cases hk : k' = k
    · simp [setEntry, hk]
    · have hmem : k ∈ rest.map Prod.fst := by
        rw [List.map_cons, List.mem_cons] at h
        rcases h with h1 | h2
        · exact absurd h1.symm hk
        · exact h2
      simp [setEntry, hk, keys_setEntry_mem rest k v hmem]

/-- Storing under a fresh key appends that key at the end of the key list. -/
theorem keys_setEntry_not_mem : ∀ (l : List (String × Value)) (k : String) (v : Value),
    k ∉ l.map Prod.fst → (setEntry l k v).map Prod.fst = l.map Prod.fst ++ [k]
  | [], k, v, _ => by simp [setEntry]
  | (k', v') :: rest, k, v, h => by
    have hk : ¬ k' = k := by
      intro hh
      exact h (by simp [hh])
    have hrest : k ∉ rest.map Prod.fst := fun hm => h (by simp [hm])
    simp [setEntry, hk, keys_setEntry_not_mem rest k v hrest]

/-- `setEntry` keeps the keys of an association list free of duplicates. -/
theorem nodup_setEntry (l : List (String × Value)) (k : String) (v : Value)
    (hnd : (l.map Prod.fst).Nodup) : ((setEntry l k v).map Prod.fst).Nodup := by
  by_cases hm : k ∈ l.map Prod.fst
  · rw [keys_setEntry_mem l k v hm]
    exact hnd
  · rw [keys_setEntry_not_mem l k v hm]
    simp [List.nodup_append, hnd, hm]

/-- `removeEntry` keeps the keys of an association list free of duplicates. -/
theorem nodup_removeEntry (l : List (String × Value)) (k : String)
    (h : (l.map Prod.fst).Nodup) : ((removeEntry l k).map Prod.fst).Nodup :=
  h.sublist ((List.filter_sublist l).map Prod.fst)

/-- A visitor pass that reports no failure visited the whole annotated entry
list. -/
theorem runVisits_none {ε : Type} (visitor : Value → String → Nat → Except ε Unit) :
    ∀ (l : List (String × Value)) (i : Nat),
      (runVisits visitor l i).2 = none → (runVisits visitor l i).1 = annotate l i
  | [], i, _ => by simp [runVisits, annotate]
  | (k, v) :: rest, i, h => by
    match hv : visitor v k i with
    | Except.error e => simp [runVisits, hv] at h
    | Except.ok _ =>
      simp only [runVisits, hv] at h ⊢
      simp [annotate, runVisits_none visitor rest (i + 1) h]

/-- The trace of a visitor pass is a prefix of the annotated entry list: no
entry beyond the point the pass reached is ever visited. -/
theorem runVisits_take {ε : Type} (visitor : Value → String → Nat → Except ε Unit) :
    ∀ (l : List (String × Value)) (i : Nat),
      (runVisits visitor l i).1 = (annotate l i).take (runVisits visitor l i).1.length
  | [], i => by simp [runVisits, annotate]
  | (k, v) :: rest, i => by
    match hv : visitor v k i with
    | Except.error e => simp [runVisits, hv, annotate]
    | Except.ok _ =>
      simp only [runVisits, hv, annotate, List.length_cons, List.take_succ_cons,
        List.cons.injEq, true_and]
      exact runVisits_take visitor rest (i + 1)

/-- A visitor pass that reports failure `e` ends with the very invocation on
which the visitor returned `e`. -/
theorem runVisits_some {ε : Type} (visitor : Value → String → Nat → Except ε Unit) :
    ∀ (l : List (String × Value)) (i : Nat) (e : ε),
      (runVisits visitor l i).2 = some e →
      ∃ tr0 v k j, (runVisits visitor l i).1 = tr0 ++ [(v, k, j)] ∧
        visitor v k j = Except.error e
  | [], i, e, h => by simp [runVisits] at h
  | (k, v) :: rest, i, e, h => by
    match hv : visitor v k i with
    | Except.error e' =>
      simp only [runVisits, hv, Option.some.injEq] at h
      exact ⟨[], v, k, i, by simp [runVisits, hv], h ▸ hv⟩
    | Except.ok _ =>
      simp only [runVisits, hv] at h
      obtain ⟨tr0, v', k', j, h1, h2⟩ := runVisits_some visitor rest (i + 1) e h
      exact ⟨(v, k, i) :: tr0, v', k', j, by simp [runVisits, hv, h1], h2⟩

/-- A successful `set(k, v)` leads to a state in which `get(k)` returns
exactly `v`. -/
theorem get_after_set (s s2 : StorageState) (k : String) (v v2 : Value)
    (h : Storage.set s k v = Except.ok (s2, v2)) :
    Storage.get s2 k = Except.ok (some v) := by
  unfold Storage.set at h
  by_cases hr : s.ready = true
  · by_cases hb : s.broken = true
    · simp [hr, hb] at h
    · simp [hr, hb] at h
      obtain ⟨h1, h2⟩ := h
      subst h1
      simp [Storage.get, hr, hb, lookup_setEntry]
  · simp [hr] at h

/-- C1: for every key `k` and serializable value `v`, after `set(k, v)`
completes successfully, a subsequent `get(k)` with no intervening write to `k`
returns a value structurally equal to `v` (round-trip law). -/
theorem set_get_roundtrip (s s2 : StorageState) (k : String) (v v2 : Value)
    (h : Storage.set s k v = Except.ok (s2, v2)) :
    Storage.get s2 k = Except.ok (some v) :=
  get_after_set s s2 k v v2 h

/-- Witness for C1 at the spec's §8 scenario: storing `John` under `Name` in
the empty initialized store and reading `Name` back yields `John`. -/
theorem set_get_roundtrip_witness :
    Storage.get { sReady with entries := [("Name", Value.str "John")] } "Name" =
      Except.ok (some (Value.str "John")) :=
  set_get_roundtrip sReady { sReady with entries := [("Name", Value.str "John")] }
    "Name" (Value.str "John") (Value.str "John") rfl

/-- C2: for every key `k` — previously set or never set — after `remove(k)`
completes successfully, a subsequent `get(k)` with no intervening write to `k`
returns the absent sentinel `null` rather than raising an error. -/
theorem remove_get_absent (s s2 : StorageState) (k : String)
    (h : Storage.remove s k = Except.ok s2) :
    Storage.get s2 k = Except.ok none := by
  unfold Storage.remove at h
  by_cases hr : s.ready = true
  · by_cases hb : s.broken = true
    · simp [hr, hb] at h
    · simp [hr, hb] at h
      subst h
      simp [Storage.get, hr, hb, lookup_removeEntry]
  · simp [hr] at h

/-- Witness for C2: removing `a` from the two-entry store and reading it back
yields the absent sentinel. -/
theorem remove_get_absent_witness :
    Storage.get { sTwo with entries := [("b", Value.num 2)] } "a" = Except.ok none :=
  remove_get_absent sTwo { sTwo with entries := [("b", Value.num 2)] } "a" rfl

/-- C3: invoking any of `set`, `get`, `remove`, `clear`, `keys`, `length` or
`forEach` before `create()` has completed successfully rejects with the
`NotInitialized` error kind, for every argument. -/
theorem ops_before_create_rejected {ε : Type} (s : StorageState)
    (h : s.ready = false) (k : String) (v : Value)
    (visitor : Value → String → Nat → Except ε Unit) :
    Storage.set s k v = Except.error StorageErr.notInit ∧
    Storage.get s k = Except.error StorageErr.notInit ∧
    Storage.remove s k = Except.error StorageErr.notInit ∧
    Storage.clear s = Except.error StorageErr.notInit ∧
    Storage.keys s = Except.error StorageErr.notInit ∧
    Storage.length s = Except.error StorageErr.notInit ∧
    Storage.forEach s visitor = ([], Except.error (Sum.inl StorageErr.notInit)) := by
  simp [Storage.set, Storage.get, Storage.remove, Storage.clear, Storage.keys,
    Storage.length, Storage.forEach, h]

/-- Witness for C3 on the fresh store: `set` before `create()` rejects with
the `NotInitialized` kind. -/
theorem ops_before_create_rejected_witness :
    sFresh.ready = false ∧
    Storage.set sFresh "Name" (Value.str "John") = Except.error StorageErr.notInit :=
  ⟨rfl, (ops_before_create_rejected sFresh rfl "Name" (Value.str "John")
    (fun _ _ _ => (Except.ok () : Except Empty Unit))).1⟩

/-- C4: from every store state, after `clear()` completes successfully,
`length()` returns 0 and `keys()` returns the empty set. -/
theorem clear_empties_store (s s2 : StorageState)
    (h : Storage.clear s = Except.ok s2) :
    Storage.length s2 = Except.ok 0 ∧ Storage.keys s2 = Except.ok [] := by
  unfold Storage.clear at h
  by_cases hr : s.ready = true
  · by_cases hb : s.broken = true
    · simp [hr, hb] at h
    · simp [hr, hb] at h
      subst h
      simp [Storage.length, Storage.keys, hr, hb]
  · simp [hr] at h

/-- Witness for C4: clearing the two-entry store leaves length 0 and no keys. -/
theorem clear_empties_store_witness :
    Storage.length { sTwo with entries := [] } = Except.ok 0 ∧
    Storage.keys { sTwo with entries := [] } = Except.ok [] :=
  clear_empties_store sTwo { sTwo with entries := [] } rfl

/-- C8: `create()` is idempotent — a second call after a prior successful
initialization returns success immediately with the state unchanged, so no
driver selection is performed again and all subsequent operations act on the
same backing engine instance. -/
theorem create_idempotent (s : StorageState) (h : s.ready = true) :
    Storage.create s = Except.ok s := by
  simp [Storage.create, h]

/-- Witness for C8: re-creating the already-initialized store returns it
unchanged. -/
theorem create_idempotent_witness : Storage.create sReady = Except.ok sReady :=
  create_idempotent sReady rfl

/-- The store's keys-unique invariant: the keys of the association list carry
no duplicates. -/
def KeysUnique (s : StorageState) : Prop := (s.entries.map Prod.fst).Nodup

/-- C5: in every store state satisfying the keys-unique invariant, the value
`length()` returns equals the cardinality of the set of keys `keys()` returns,
and the invariant is preserved by every state-changing operation (`create`,
`set`, `remove`, `clear`; `get`, `keys`, `length` and `forEach` leave the
state untouched by construction). -/
theorem length_eq_keys_card (s : StorageState) (hu : KeysUnique s) :
    (∀ n ks, Storage.length s = Except.ok n → Storage.keys s = Except.ok ks →
      n = ks.toFinset.card) ∧
    (∀ s2, Storage.create s = Except.ok s2 → KeysUnique s2) ∧
    (∀ k v s2 v2, Storage.set s k v = Except.ok (s2, v2) → KeysUnique s2) ∧
    (∀ k s2, Storage.remove s k = Except.ok s2 → KeysUnique s2) ∧
    (∀ s2, Storage.clear s = Except.ok s2 → KeysUnique s2) := by
  refine ⟨?_, ?_, ?_, ?_, ?_⟩
  · intro n ks hn hk
    unfold Storage.length at hn
    unfold Storage.keys at hk
    by_cases hr : s.ready = true
    · by_cases hb : s.broken = true
      · simp [hr, hb] at hn
      · simp [hr, hb] at hn hk
        subst hn
        subst hk
        rw [List.toFinset_card_of_nodup hu, List.length_map]
    · simp [hr] at hn
  · intro s2 h
    unfold Storage.create at h
    by_cases hr : s.ready = true
    · simp [hr] at h
      subst h
      exact hu
    · simp [hr] at h
      cases hsel : selectDriver s with
      | none => simp [hsel] at h
      | some d =>
        simp [hsel] at h
        subst h
        exact hu
  · intro k v s2 v2 h
    unfold Storage.set at h
    by_cases hr : s.ready = true
    · by_cases hb : s.broken = true
      · simp [hr, hb] at h
      · simp [hr, hb] at h
        obtain ⟨h1, h2⟩ := h
        subst h1
        exact nodup_setEntry s.entries k v hu
    · simp [hr] at h
  · intro k s2 h
    unfold Storage.remove at h
    by_cases hr : s.ready = true
    · by_cases hb : s.broken = true
      · simp [hr, hb] at h
      · simp [hr, hb] at h
        subst h
        exact nodup_removeEntry s.entries k hu
    · simp [hr] at h
  · intro s2 h
    unfold Storage.clear at h
    by_cases hr : s.ready = true
    · by_cases hb : s.broken = true
      · simp [hr, hb] at h
      · simp [hr, hb] at h
        subst h
        simp [KeysUnique]
    · simp [hr] at h

/-- Witness for C5 on the two-entry store: length 2 equals the cardinality of
the key set, and storing a third entry preserves the invariant. -/
theorem length_eq_keys_card_witness :
    KeysUnique sTwo ∧
    (2 : Nat) = (["a", "b"] : List String).toFinset.card :=
  ⟨by simp [KeysUnique, sTwo],
    (length_eq_keys_card sTwo (by simp [KeysUnique, sTwo])).1 2 ["a", "b"] rfl rfl⟩

/-- C6: for every initialized, healthy store state and every visitor,
`forEach(visitor)` visits only entries of the annotated entry sequence, in
order from the front (the trace is a prefix of it); when no invocation fails
the visitor is invoked exactly once per stored entry with
`(value, key, ordinalIndex)`; and when some invocation fails, that failure is
the reported outcome and the trace ends at the failing invocation, so no
further entries are visited. -/
theorem forEach_visits_entries {ε : Type} (s : StorageState)
    (hr : s.ready = true) (hb : s.broken = false)
    (visitor : Value → String → Nat → Except ε Unit) :
    (Storage.forEach s visitor).1 =
      (annotate s.entries 0).take (Storage.forEach s visitor).1.length ∧
    ((Storage.forEach s visitor).2 = Except.ok () →
      (Storage.forEach s visitor).1 = annotate s.entries 0) ∧
    (∀ e, (Storage.forEach s visitor).2 = Except.error (Sum.inr e) →
      ∃ tr0 v k j, (Storage.forEach s visitor).1 = tr0 ++ [(v, k, j)] ∧
        visitor v k j = Except.error e) := by
  unfold Storage.forEach
  simp only [hr, hb, if_true, Bool.false_eq_true, if_false]
  refine ⟨runVisits_take visitor s.entries 0, ?_, ?_⟩
  · intro h
    cases hrv : (runVisits visitor s.entries 0).2 with
    | none => exact runVisits_none visitor s.entries 0 hrv
    | some e => simp [hrv] at h
  · intro e h
    cases hrv : (runVisits visitor s.entries 0).2 with
    | none => simp [hrv] at h
    | some e' =>
      simp [hrv] at h
      subst h
      exact runVisits_some visitor s.entries 0 e' hrv

/-- A concrete visitor that fails (with payload 7) on the key `b` and
succeeds elsewhere. -/
def visFailOnB : Value → String → Nat → Except Nat Unit := fun _ k _ =>
  if k = "b" then Except.error 7 else Except.ok ()

/-- Witness for C6 on the two-entry store: a visitor that fails on `b` is
invoked on `a` and then on `b`, where its failure ends the pass. -/
theorem forEach_visits_entries_witness :
    sTwo.ready = true ∧
    (∃ tr0 v k j, (Storage.forEach sTwo visFailOnB).1 = tr0 ++ [(v, k, j)] ∧
      visFailOnB v k j = Except.error 7) :=
  ⟨rfl, (forEach_visits_entries sTwo rfl rfl visFailOnB).2.2 7 rfl⟩

/-- Counterexample to C7 at a concrete input: on the initialized store whose
driver is failing, `setItem` surfaces the engine's `WriteFailure` to its
caller, yet writes nothing to the console or any other observability sink —
so the engine failure is not logged with operation and key context. -/
theorem engine_failure_unlogged_cex :
    (HomePage.setItem pEx sFaulty).err = some StorageErr.writeFailure ∧
    (HomePage.setItem pEx sFaulty).log = [] :=
  ⟨rfl, rfl⟩

/-- C7 as amended: every engine failure is re-signaled unchanged to the
immediate caller of the handler that hit it (never swallowed, no automatic
retry — each handler issues its single storage call exactly once), but no
handler logs anything to an observability sink: every handler's log is empty
on every input. -/
theorem engine_failure_propagates_unlogged (p : HomePage) (s : StorageState)
    (e : StorageErr) :
    (Storage.set s p.key (Value.str p.value) = Except.error e →
      (p.setItem s).err = some e) ∧
    (Storage.get s p.key = Except.error e → (p.getItem s).err = some e) ∧
    (Storage.remove s p.key = Except.error e → (p.removeItem s).err = some e) ∧
    (Storage.clear s = Except.error e → (p.clearStorage s).err = some e) ∧
    (Storage.keys s = Except.error e → (p.getKeys s).err = some e) ∧
    (Storage.length s = Except.error e → (p.getLength s).err = some e) ∧
    ((Storage.forEach s (fun _ _ _ => (Except.ok () : Except Empty Unit))).2 =
        Except.error (Sum.inl e) → (p.enumerateItems s).err = some e) ∧
    (p.setItem s).log = [] ∧ (p.getItem s).log = [] ∧
    (p.removeItem s).log = [] ∧ (p.clearStorage s).log = [] ∧
    (p.getKeys s).log = [] ∧ (p.getLength s).log = [] ∧
    (p.enumerateItems s).log = [] := by
  refine ⟨?_, ?_, ?_, ?_, ?_, ?_, ?_, ?_, ?_, ?_, ?_, ?_, ?_, ?_⟩
  · intro h
    simp [HomePage.setItem, h]
  · intro h
    simp [HomePage.getItem, h]
  · intro h
    simp [HomePage.removeItem, h]
  · intro h
    simp [HomePage.clearStorage, h]
  · intro h
    simp [HomePage.getKeys, h]
  · intro h
    simp [HomePage.getLength, h]
  · intro h
    cases hfe : Storage.forEach s (fun _ _ _ => (Except.ok () : Except Empty Unit)) with
    | mk tr r =>
      rw [hfe] at h
      simp at h
      cases r with
      | ok u => simp at h
      | error se =>
        cases se with
        | inl e' =>
          simp at h
          subst h
          simp [HomePage.enumerateItems, hfe]
        | inr e' => exact e'.elim
  · cases h : Storage.set s p.key (Value.str p.value) <;> simp [HomePage.setItem, h]
  · cases h : Storage.get s p.key <;> simp [HomePage.getItem, h]
  · cases h : Storage.remove s p.key <;> simp [HomePage.removeItem, h]
  · cases h : Storage.clear s <;> simp [HomePage.clearStorage, h]
  · cases h : Storage.keys s <;> simp [HomePage.getKeys, h]
  · cases h : Storage.length s <;> simp [HomePage.getLength, h]
  · cases hfe : Storage.forEach s (fun _ _ _ => (Except.ok () : Except Empty Unit)) with
    | mk tr r =>
      cases r with
      | ok u => simp [HomePage.enumerateItems, hfe]
      | error se =>
        cases se with
        | inl e' => simp [HomePage.enumerateItems, hfe]
        | inr e' => exact e'.elim

/-- Witness for the amended C7: on the faulty store, `getItem` re-signals the
engine's `ReadFailure` unchanged. -/
theorem engine_failure_propagates_unlogged_witness :
    Storage.get sFaulty "Name" = Except.error StorageErr.readFailure ∧
    (HomePage.getItem pEx sFaulty).err = some StorageErr.readFailure :=
  ⟨rfl, (engine_failure_propagates_unlogged pEx sFaulty StorageErr.readFailure).2.1 rfl⟩

/-- C9: for every `HomePage` handler, if the awaited storage operation fails
(its promise rejects), the component's `output` field retains the value it
had before the handler was invoked — the assignment to `output` occurs only
after the await succeeds and no handler catches the rejection. -/
theorem handler_failure_preserves_output (p : HomePage) (s : StorageState)
    (e : StorageErr) :
    ((p.setItem s).err = some e → (p.setItem s).page.output = p.output) ∧
    ((p.getItem s).err = some e → (p.getItem s).page.output = p.output) ∧
    ((p.removeItem s).err = some e → (p.removeItem s).page.output = p.output) ∧
    ((p.clearStorage s).err = some e → (p.clearStorage s).page.output = p.output) ∧
    ((p.getKeys s).err = some e → (p.getKeys s).page.output = p.output) ∧
    ((p.getLength s).err = some e → (p.getLength s).page.output = p.output) ∧
    ((p.enumerateItems s).err = some e → (p.enumerateItems s).page.output = p.output) := by
  refine ⟨?_, ?_, ?_, ?_, ?_, ?_, ?_⟩
  · cases h : Storage.set s p.key (Value.str p.value) <;> simp [HomePage.setItem, h]
  · cases h : Storage.get s p.key <;> simp [HomePage.getItem, h]
  · cases h : Storage.remove s p.key <;> simp [HomePage.removeItem, h]
  · cases h : Storage.clear s <;> simp [HomePage.clearStorage, h]
  · cases h : Storage.keys s <;> simp [HomePage.getKeys, h]
  · cases h : Storage.length s <;> simp [HomePage.getLength, h]
  · cases hfe : Storage.forEach s (fun _ _ _ => (Except.ok () : Except Empty Unit)) with
    | mk tr r =>
      cases r with
      | ok u => simp [HomePage.enumerateItems, hfe]
      | error se =>
        cases se with
        | inl e' => simp [HomePage.enumerateItems, hfe]
        | inr e' => exact e'.elim

/-- Witness for C9: before `create()` has run, `setItem` rejects and the
`output` field is unchanged. -/
theorem handler_failure_preserves_output_witness :
    (HomePage.setItem pEx sFresh).err = some StorageErr.notInit ∧
    (HomePage.setItem pEx sFresh).page.output = pEx.output :=
  ⟨rfl, (handler_failure_preserves_output pEx sFresh StorageErr.notInit).1 rfl⟩

/-- C10: for every key absent from an initialized, healthy store,
`HomePage.getItem` sets `output` to the string `Get (key): null`, and this is
the very output produced after the string value `null` is stored under that
key — at this interface the absent sentinel is indistinguishable from a
stored value rendering as `null`. -/
theorem absent_renders_as_null (p : HomePage) (s : StorageState)
    (hr : s.ready = true) (hb : s.broken = false)
    (habs : lookupEntry s.entries p.key = none) :
    (HomePage.getItem p s).page.output = "Get " ++ p.key ++ ": null" ∧
    (∀ s2 v2, Storage.set s p.key (Value.str "null") = Except.ok (s2, v2) →
      (HomePage.getItem p s2).page.output = (HomePage.getItem p s).page.output) := by
  have hget : Storage.get s p.key = Except.ok none := by
    simp [Storage.get, hr, hb, habs]
  constructor
  · simp [HomePage.getItem, hget, renderGet]
    rw [String.append_assoc]
    exact rfl
  · intro s2 v2 h
    have hget2 : Storage.get s2 p.key = Except.ok (some (Value.str "null")) :=
      get_after_set s s2 p.key (Value.str "null") v2 h
    simp [HomePage.getItem, hget, hget2, renderGet, Value.jsString]

/-- Witness for C10: with key `Name` absent, `getItem` renders
`Get Name: null`, and after storing the string `null` under `Name` it renders
the identical text. -/
theorem absent_renders_as_null_witness :
    (HomePage.getItem pEx sReady).page.output = "Get Name: null" ∧
    (HomePage.getItem pEx { sReady with entries := [("Name", Value.str "null")] }).page.output =
      (HomePage.getItem pEx sReady).page.output :=
  ⟨(absent_renders_as_null pEx sReady rfl rfl rfl).1,
    (absent_renders_as_null pEx sReady rfl rfl rfl).2
      { sReady with entries := [("Name", Value.str "null")] } (Value.str "null") rfl⟩
